import Mathlib

/-!
# Verification of the manual-MQTT alarm panel and the RainCloud polling hub

Shallow embedding of `homeassistant/components/alarm_control_panel/manual_mqtt.py`
and `homeassistant/components/raincloud.py`.

Time is modelled as `Nat` (seconds).  The Python `self._state_ts` starts as
`None`; it is modelled as `Option Nat`, and every place that would perform
timestamp arithmetic on `None` (a Python `TypeError`) is modelled as an
`Except.error`.  The `state` property can mutate `self._state` (trigger
auto-restore), so it is embedded as a function returning the display state
together with the (possibly updated) panel.
-/

/-- The alarm state strings used by the panel: the five raw states plus the
derived `pending` display state. -/
inductive AlarmState where
  | disarmed
  | armed_away
  | armed_home
  | armed_night
  | triggered
  | pending
deriving DecidableEq, Repr

/-- `SUPPORTED_PENDING_STATES` from the source: the states that may have a
pending window. -/
def SUPPORTED_PENDING_STATES : List AlarmState :=
  [.armed_away, .armed_home, .armed_night, .triggered]

/-- The string value of each alarm state constant (`STATE_ALARM_*`). -/
def alarmStateStr : AlarmState → String
  | .disarmed => "disarmed"
  | .armed_away => "armed_away"
  | .armed_home => "armed_home"
  | .armed_night => "armed_night"
  | .triggered => "triggered"
  | .pending => "pending"

/-- The mutable/configured fields of `ManualMQTTAlarm` that the state machine
reads and writes.  `_pending_time_by_state` is the per-state pending-duration
map built in `__init__`; `_trigger_time` is in seconds (`timedelta` truthiness
becomes `≠ 0`). -/
structure ManualMQTTAlarm where
  _state : AlarmState
  _code : Option String
  _pending_time : Nat
  _trigger_time : Nat
  _disarm_after_trigger : Bool
  _pre_trigger_state : AlarmState
  _state_ts : Option Nat
  _pending_time_by_state : AlarmState → Nat
  _state_topic : String
  _qos : Nat

/-- The Python `TypeError` raised by `None + timedelta`. -/
def nullTsError : String :=
  "TypeError: unsupported operand for NoneType and timedelta"

/-- `self._within_pending_time(state)`: `self._state_ts + pending_time >
dt_util.utcnow()`.  Arithmetic on a `None` timestamp raises. -/
def ManualMQTTAlarm._within_pending_time (p : ManualMQTTAlarm) (s : AlarmState)
    (now : Nat) : Except String Bool :=
  match p._state_ts with
  | none => .error nullTsError
  | some ts => .ok (decide (ts + p._pending_time_by_state s > now))

/-- The last two branches of the `state` property: if the current raw state is
a supported pending state and within its pending window, display `pending`;
otherwise display the raw state. -/
def ManualMQTTAlarm.stateTail (p : ManualMQTTAlarm) (now : Nat) :
    Except String (AlarmState × ManualMQTTAlarm) :=
  if p._state ∈ SUPPORTED_PENDING_STATES then
    match p._within_pending_time p._state now with
    | .error e => .error e
    | .ok true => .ok (.pending, p)
    | .ok false => .ok (p._state, p)
  else
    .ok (p._state, p)

/-- The `state` property.  Returns the display state and the panel, which is
mutated exactly when the trigger window has fully elapsed and
`disarm_after_trigger` is false: then `self._state = self._pre_trigger_state`
is the documented side effect of the query. -/
def ManualMQTTAlarm.state (p : ManualMQTTAlarm) (now : Nat) :
    Except String (AlarmState × ManualMQTTAlarm) :=
  if p._state = .triggered ∧ p._trigger_time ≠ 0 then
    match p._within_pending_time p._state now with
    | .error e => .error e
    | .ok true => .ok (.pending, p)
    | .ok false =>
      match p._state_ts with
      | none => .error nullTsError
      | some ts =>
        if ts + p._pending_time_by_state p._state + p._trigger_time < now then
          if p._disarm_after_trigger then
            .ok (.disarmed, p)
          else
            .ok (p._pre_trigger_state, { p with _state := p._pre_trigger_state })
        else
          p.stateTail now
  else
    p.stateTail now

/-- `self._validate_code(code, state)`: valid when no secret is configured,
otherwise exact string match. -/
def ManualMQTTAlarm._validate_code (p : ManualMQTTAlarm) (code : Option String)
    (_s : AlarmState) : Bool :=
  p._code.isNone || code == p._code

/-- `self._update_state(state)`: set the raw state and timestamp, then
schedule re-evaluation callbacks.  The returned list holds the times passed to
`track_point_in_time`, in registration order. -/
def ManualMQTTAlarm._update_state (p : ManualMQTTAlarm) (s : AlarmState)
    (now : Nat) : ManualMQTTAlarm × List Nat :=
  let q : ManualMQTTAlarm := { p with _state := s, _state_ts := some now }
  let pending_time := q._pending_time_by_state s
  if s = .triggered ∧ q._trigger_time ≠ 0 then
    (q, [now + pending_time, now + q._trigger_time + pending_time])
  else if s ∈ SUPPORTED_PENDING_STATES ∧ pending_time ≠ 0 then
    (q, [now + pending_time])
  else
    (q, [])

/-- `alarm_disarm`: validate, then set `Disarmed` and the timestamp directly;
no callback is ever scheduled. -/
def ManualMQTTAlarm.alarm_disarm (p : ManualMQTTAlarm) (code : Option String)
    (now : Nat) : ManualMQTTAlarm × List Nat :=
  if ¬ p._validate_code code .disarmed then
    (p, [])
  else
    ({ p with _state := .disarmed, _state_ts := some now }, [])

/-- `alarm_arm_home`: validate, then `_update_state(armed_home)`. -/
def ManualMQTTAlarm.alarm_arm_home (p : ManualMQTTAlarm) (code : Option String)
    (now : Nat) : ManualMQTTAlarm × List Nat :=
  if ¬ p._validate_code code .armed_home then
    (p, [])
  else
    p._update_state .armed_home now

/-- `alarm_arm_away`: validate, then `_update_state(armed_away)`. -/
def ManualMQTTAlarm.alarm_arm_away (p : ManualMQTTAlarm) (code : Option String)
    (now : Nat) : ManualMQTTAlarm × List Nat :=
  if ¬ p._validate_code code .armed_away then
    (p, [])
  else
    p._update_state .armed_away now

/-- `alarm_arm_night`: validate, then `_update_state(armed_night)`. -/
def ManualMQTTAlarm.alarm_arm_night (p : ManualMQTTAlarm) (code : Option String)
    (now : Nat) : ManualMQTTAlarm × List Nat :=
  if ¬ p._validate_code code .armed_night then
    (p, [])
  else
    p._update_state .armed_night now

/-- `alarm_trigger`: no code check; unconditionally snapshot the current raw
state into `_pre_trigger_state`, then `_update_state(triggered)`. -/
def ManualMQTTAlarm.alarm_trigger (p : ManualMQTTAlarm) (_code : Option String)
    (now : Nat) : ManualMQTTAlarm × List Nat :=
  ({ p with _pre_trigger_state := p._state })._update_state .triggered now

/-- `__init__`: the panel starts `Disarmed` with a `None` timestamp; an empty
configured code is falsy in Python, so it is stored as `None`. -/
def ManualMQTTAlarm.init (code : Option String) (pending_time trigger_time : Nat)
    (disarm_after_trigger : Bool) (pending_time_by_state : AlarmState → Nat)
    (state_topic : String) (qos : Nat) : ManualMQTTAlarm :=
  { _state := .disarmed
    _code := match code with
      | none => none
      | some s => if s = "" then none else some s
    _pending_time := pending_time
    _trigger_time := trigger_time
    _disarm_after_trigger := disarm_after_trigger
    _pre_trigger_state := .disarmed
    _state_ts := none
    _pending_time_by_state := pending_time_by_state
    _state_topic := state_topic
    _qos := qos }

/-- `_state_validator`: fill each supported state's pending time with the
global default when no per-state override is configured. -/
def _state_validator (global_pending : Nat) (overrides : AlarmState → Option Nat) :
    AlarmState → Nat :=
  fun s => (overrides s).getD global_pending

/-- An outbound MQTT publication, as produced by `mqtt.async_publish`. -/
structure MqttMessage where
  topic : String
  payload : String
  qos : Nat
  retain : Bool
deriving DecidableEq, Repr

/-- `_async_state_changed_listener`: republish the state carried by the host's
state-changed notification to the state topic, retained, at the configured
QoS. -/
def ManualMQTTAlarm._async_state_changed_listener (p : ManualMQTTAlarm)
    (new_state : String) : MqttMessage :=
  { topic := p._state_topic, payload := new_state, qos := p._qos, retain := true }

/-- Modelled from the spec: the host's state-changed notification pipeline
(`schedule_update_ha_state` / `async_track_state_change`, home-assistant core
code not present in this excerpt) fires whenever the observable alarm state
changes and, per the spec's outbound-publish rule, delivers the *raw* current
state string to the listener. -/
def host_state_changed_payload (p : ManualMQTTAlarm) : String :=
  alarmStateStr p._state

/-- The dispatcher signal name used by the RainCloud hub. -/
def SIGNAL_UPDATE_RAINCLOUD : String := "raincloud_update"

/-- `hub_refresh` from `raincloud.py`: call `data.update()` on the hub (the
external fetch, modelled by its result, which may be a connectivity error),
then `dispatcher_send(hass, SIGNAL_UPDATE_RAINCLOUD)`.  There is no exception
handler in the callback, so a fetch failure propagates out and the signal is
not dispatched.  The `ok` value lists the dispatched signals. -/
def hub_refresh (updateResult : Except String Unit) : Except String (List String) :=
  match updateResult with
  | .error e => .error e
  | .ok _ => .ok [SIGNAL_UPDATE_RAINCLOUD]

/-- Modelled from the spec: the host's fixed-interval scheduler
(`track_time_interval`, home-assistant core code not present in this excerpt)
runs the refresh callback each tick; per the spec, a failure escaping the
callback is absorbed and logged by the host and the timer keeps running.
Returns the logged errors of the tick and whether the timer is still alive. -/
def hostIntervalTick (tickResult : Except String (List String)) :
    List String × Bool :=
  match tickResult with
  | .error e => ([e], true)
  | .ok _ => ([], true)

/-! ## Concrete panels used as witnesses and counterexamples -/

/-- Two successive effective-state queries at the same time, the second one
observing the panel left behind by the first. -/
def stateTwice (p : ManualMQTTAlarm) (now : Nat) :
    Except String (AlarmState × ManualMQTTAlarm) :=
  (p.state now).bind fun r => r.2.state now

/-- A per-state pending-duration map: 60 s for `triggered`, 300 s override for
`armed_home`, 0 elsewhere. -/
def pendingMapA : AlarmState → Nat
  | .triggered => 60
  | .armed_home => 300
  | _ => 0

/-- A per-state pending-duration map with a 30 s `armed_away` window. -/
def pendingMapB : AlarmState → Nat
  | .armed_away => 30
  | .triggered => 60
  | _ => 0

/-- A panel armed home, no code, `trigger_time = 120`,
`pending_time[triggered] = 60`, `disarm_after_trigger = false`. -/
def alarmC1w : ManualMQTTAlarm :=
  { _state := .armed_home
    _code := none
    _pending_time := 60
    _trigger_time := 120
    _disarm_after_trigger := false
    _pre_trigger_state := .disarmed
    _state_ts := some 0
    _pending_time_by_state := pendingMapA
    _state_topic := "home/alarm"
    _qos := 0 }

/-- A triggered panel with `disarm_after_trigger = true`, transitioned at 0. -/
def alarmC2x : ManualMQTTAlarm :=
  { alarmC1w with _state := .triggered, _disarm_after_trigger := true,
                  _pre_trigger_state := .armed_home }

/-- The configured panel of the re-query scenario (built through `init`). -/
def alarmC3cfg : ManualMQTTAlarm :=
  ManualMQTTAlarm.init none 60 120 false pendingMapA "home/alarm" 0

/-- `alarmC3cfg` after arm-home at time 0 and trigger at time 100: a state
reached purely through commands. -/
def alarmC3 : ManualMQTTAlarm :=
  (((alarmC3cfg.alarm_arm_home none 0).1).alarm_trigger none 100).1

/-- The panel `alarmC3` leaves behind after the restoring query at 281. -/
def alarmC3r : ManualMQTTAlarm := { alarmC3 with _state := .armed_home }

/-- A triggered panel whose real pre-trigger snapshot is `armed_home`. -/
def alarmC4x : ManualMQTTAlarm :=
  { alarmC1w with _state := .triggered, _pre_trigger_state := .armed_home }

/-- A panel guarded by the secret `"1234"`. -/
def alarmC6s : ManualMQTTAlarm := { alarmC1w with _code := some "1234" }

/-- A disarmed panel with a 30 s `armed_away` pending window. -/
def alarmC7w : ManualMQTTAlarm :=
  { alarmC1w with _state := .disarmed, _pending_time_by_state := pendingMapB }

/-! ## Evaluation lemmas for the `state` property -/

lemma update_state_fst (p : ManualMQTTAlarm) (s : AlarmState) (now : Nat) :
    (p._update_state s now).1 = { p with _state := s, _state_ts := some now } := by
  unfold ManualMQTTAlarm._update_state
  dsimp only
  split
  · rfl
  · split <;> rfl

lemma alarm_trigger_fst (p : ManualMQTTAlarm) (code : Option String) (now : Nat) :
    (p.alarm_trigger code now).1 =
      { p with _pre_trigger_state := p._state, _state := .triggered,
               _state_ts := some now } := by
  unfold ManualMQTTAlarm.alarm_trigger
  rw [update_state_fst]

lemma within_some (p : ManualMQTTAlarm) (ts : Nat) (hts : p._state_ts = some ts)
    (s : AlarmState) (now : Nat) :
    p._within_pending_time s now =
      .ok (decide (ts + p._pending_time_by_state s > now)) := by
  unfold ManualMQTTAlarm._within_pending_time
  rw [hts]

lemma state_eq_tail (p : ManualMQTTAlarm) (now : Nat)
    (h : ¬ (p._state = .triggered ∧ p._trigger_time ≠ 0)) :
    p.state now = p.stateTail now := by
  unfold ManualMQTTAlarm.state
  rw [if_neg h]

lemma state_pending (p : ManualMQTTAlarm) (ts now : Nat)
    (hc : p._state = .triggered) (ht : p._trigger_time ≠ 0)
    (hts : p._state_ts = some ts)
    (hw : now < ts + p._pending_time_by_state .triggered) :
    p.state now = .ok (.pending, p) := by
  unfold ManualMQTTAlarm.state
  rw [if_pos ⟨hc, ht⟩, hc, within_some p ts hts, decide_eq_true hw]

lemma state_after_pending (p : ManualMQTTAlarm) (ts now : Nat)
    (hc : p._state = .triggered) (ht : p._trigger_time ≠ 0)
    (hts : p._state_ts = some ts)
    (hw : ¬ now < ts + p._pending_time_by_state .triggered)
    (hb : ¬ ts + p._pending_time_by_state .triggered + p._trigger_time < now) :
    p.state now = p.stateTail now := by
  unfold ManualMQTTAlarm.state
  rw [if_pos ⟨hc, ht⟩, hc, within_some p ts hts, decide_eq_false hw, hts]
  dsimp only
  rw [if_neg hb]

lemma state_expired_disarm (p : ManualMQTTAlarm) (ts now : Nat)
    (hc : p._state = .triggered) (ht : p._trigger_time ≠ 0)
    (hts : p._state_ts = some ts)
    (hb : ts + p._pending_time_by_state .triggered + p._trigger_time < now)
    (hd : p._disarm_after_trigger = true) :
    p.state now = .ok (.disarmed, p) := by
  unfold ManualMQTTAlarm.state
  have hw : ¬ now < ts + p._pending_time_by_state .triggered := by omega
  rw [if_pos ⟨hc, ht⟩, hc, within_some p ts hts, decide_eq_false hw, hts]
  dsimp only
  rw [if_pos hb, hd]
  rfl

lemma state_expired_restore (p : ManualMQTTAlarm) (ts now : Nat)
    (hc : p._state = .triggered) (ht : p._trigger_time ≠ 0)
    (hts : p._state_ts = some ts)
    (hb : ts + p._pending_time_by_state .triggered + p._trigger_time < now)
    (hd : p._disarm_after_trigger = false) :
    p.state now =
      .ok (p._pre_trigger_state, { p with _state := p._pre_trigger_state }) := by
  unfold ManualMQTTAlarm.state
  have hw : ¬ now < ts + p._pending_time_by_state .triggered := by omega
  rw [if_pos ⟨hc, ht⟩, hc, within_some p ts hts, decide_eq_false hw, hts]
  dsimp only
  rw [if_pos hb, hd]
  rfl

lemma stateTail_not_supported (p : ManualMQTTAlarm) (now : Nat)
    (h : p._state ∉ SUPPORTED_PENDING_STATES) :
    p.stateTail now = .ok (p._state, p) := by
  unfold ManualMQTTAlarm.stateTail
  rw [if_neg h]

lemma stateTail_pending (p : ManualMQTTAlarm) (ts now : Nat)
    (hmem : p._state ∈ SUPPORTED_PENDING_STATES)
    (hts : p._state_ts = some ts)
    (hw : now < ts + p._pending_time_by_state p._state) :
    p.stateTail now = .ok (.pending, p) := by
  unfold ManualMQTTAlarm.stateTail
  rw [if_pos hmem, within_some p ts hts, decide_eq_true hw]

lemma stateTail_raw (p : ManualMQTTAlarm) (ts now : Nat)
    (hmem : p._state ∈ SUPPORTED_PENDING_STATES)
    (hts : p._state_ts = some ts)
    (hw : ¬ now < ts + p._pending_time_by_state p._state) :
    p.stateTail now = .ok (p._state, p) := by
  unfold ManualMQTTAlarm.stateTail
  rw [if_pos hmem, within_some p ts hts, decide_eq_false hw]

lemma stateTail_snd (p : ManualMQTTAlarm) (now : Nat)
    (r : AlarmState × ManualMQTTAlarm) (h : p.stateTail now = .ok r) :
    r.2 = p := by
  unfold ManualMQTTAlarm.stateTail at h
  split at h
  · split at h
    · exact absurd h (by simp)
    · cases h; rfl
    · cases h; rfl
  · cases h; rfl

lemma stateTail_ok (p : ManualMQTTAlarm) (ts : Nat) (now : Nat)
    (hts : p._state_ts = some ts) :
    ∃ d, p.stateTail now = .ok (d, p) := by
  unfold ManualMQTTAlarm.stateTail
  rw [within_some p ts hts]
  by_cases hmem : p._state ∈ SUPPORTED_PENDING_STATES
  · rw [if_pos hmem]
    cases hdec : decide (ts + p._pending_time_by_state p._state > now)
    · exact ⟨p._state, rfl⟩
    · exact ⟨.pending, rfl⟩
  · rw [if_neg hmem]
    exact ⟨p._state, rfl⟩

/-! ## Claim theorems -/

/-- C2 counterexample: with `trigger_time = 120`, `pending_time[triggered] =
60`, `disarm_after_trigger = true`, `current = Triggered`, `transitionedAt =
0`, querying at `now = 180` — exactly the boundary `transitionedAt +
pending + trigger` — returns `Triggered`, not `Disarmed` as the claim's
"`now >=` boundary" demands: the source comparison is strict. -/
theorem C2_counterexample :
    alarmC2x._state = .triggered ∧
    alarmC2x._disarm_after_trigger = true ∧
    alarmC2x._trigger_time ≠ 0 ∧
    alarmC2x._state_ts = some 0 ∧
    0 + alarmC2x._pending_time_by_state .triggered + alarmC2x._trigger_time = 180 ∧
    alarmC2x.state 180 = .ok (.triggered, alarmC2x) ∧
    AlarmState.triggered ≠ AlarmState.disarmed := by
  refine ⟨rfl, rfl, by decide, rfl, by decide, ?_, by decide⟩
  rfl

/-- C2 (amended): with `triggerDuration > 0` and `disarmAfterTrigger = true`,
when `current = Triggered` the effective state is `Disarmed` for every `now`
strictly greater than `transitionedAt + pendingDuration[Triggered] +
triggerDuration` (at the exact boundary it is still `Triggered`), and this
logical expiry does not mutate the stored state. -/
theorem C2_trigger_expiry_disarm (p : ManualMQTTAlarm) (ts now : Nat)
    (hc : p._state = .triggered) (ht : p._trigger_time ≠ 0)
    (hd : p._disarm_after_trigger = true) (hts : p._state_ts = some ts)
    (hgt : ts + p._pending_time_by_state .triggered + p._trigger_time < now) :
    p.state now = .ok (.disarmed, p) :=
  state_expired_disarm p ts now hc ht hts hgt hd

/-- Witness for C2 (amended) at `alarmC2x`, one second past the boundary. -/
theorem C2_trigger_expiry_disarm_witness :
    alarmC2x.state 181 = .ok (.disarmed, alarmC2x) :=
  C2_trigger_expiry_disarm alarmC2x 0 181 rfl (by decide) rfl rfl (by decide)

/-- C4 counterexample: `alarm_trigger` on a panel that is already `Triggered`
(with real pre-trigger snapshot `armed_home`) overwrites `_pre_trigger_state`
with `Triggered` — the claim's "leaves the previously captured preTriggerState
unchanged" fails. -/
theorem C4_counterexample :
    alarmC4x._state = .triggered ∧
    alarmC4x._pre_trigger_state = .armed_home ∧
    (alarmC4x.alarm_trigger none 7).1._pre_trigger_state = .triggered ∧
    AlarmState.triggered ≠ AlarmState.armed_home :=
  ⟨rfl, rfl, rfl, by decide⟩

/-- C4 (amended): `alarm_trigger` always succeeds regardless of the supplied
code and unconditionally captures `preTriggerState = current` — also when the
panel is already `Triggered`, in which case the snapshot is clobbered with
`Triggered`. -/
theorem C4_trigger_capture (p : ManualMQTTAlarm) (code : Option String) (now : Nat) :
    (p.alarm_trigger code now).1._pre_trigger_state = p._state ∧
    (p.alarm_trigger code now).1._state = .triggered ∧
    (p.alarm_trigger code now).1._state_ts = some now := by
  rw [alarm_trigger_fst]
  exact ⟨rfl, rfl, rfl⟩

/-- C8 counterexample: a `ConnectTimeout` raised by the external fetch during
a periodic refresh propagates out of `hub_refresh` unchanged — the callback
installs no handler and dispatches no update signal for that tick. -/
theorem C8_counterexample :
    hub_refresh (.error "ConnectTimeout") = .error "ConnectTimeout" ∧
    hub_refresh (.error "ConnectTimeout") ≠ .ok [SIGNAL_UPDATE_RAINCLOUD] :=
  ⟨rfl, fun h => Except.noConfusion h⟩

/-- C8 (amended): every connectivity failure raised by the fetch propagates
out of `hub_refresh` uncaught (nothing is logged there and no update signal is
dispatched); absorbing the failure so the interval timer keeps running — and
the fetch is retried on the next tick — is done by the host's interval
scheduler (modelled from the spec as `hostIntervalTick`). -/
theorem C8_refresh_failure (e : String) :
    hub_refresh (.error e) = .error e ∧
    hostIntervalTick (hub_refresh (.error e)) = ([e], true) ∧
    ∀ r : Except String Unit, (hostIntervalTick (hub_refresh r)).2 = true := by
  refine ⟨rfl, rfl, fun r => ?_⟩
  cases r <;> rfl

/-- C9: straight after `__init__` the panel is `Disarmed` with a null
`_state_ts`, and the effective-state query at any time returns `Disarmed`
as a value (`.ok`, never the `.error` that models timestamp arithmetic on the
null timestamp) and leaves the panel unchanged: `Disarmed` is outside the
supported-pending set, so the pending-window check is never reached. -/
theorem C9_initial_query_safe (code : Option String) (pt tt : Nat) (dat : Bool)
    (m : AlarmState → Nat) (topic : String) (qos now : Nat) :
    (ManualMQTTAlarm.init code pt tt dat m topic qos)._state = .disarmed ∧
    (ManualMQTTAlarm.init code pt tt dat m topic qos)._state_ts = none ∧
    (ManualMQTTAlarm.init code pt tt dat m topic qos).state now =
      .ok (.disarmed, ManualMQTTAlarm.init code pt tt dat m topic qos) := by
  have hs : (ManualMQTTAlarm.init code pt tt dat m topic qos)._state = .disarmed := rfl
  refine ⟨rfl, rfl, ?_⟩
  rw [state_eq_tail _ now (fun hand => by rw [hs] at hand; exact absurd hand.1 (by decide))]
  exact stateTail_not_supported _ now (by rw [hs]; decide)

/-- C10: an empty-string configured code is falsy in Python, so the panel
stores no code at all; every guarded command then validates for every supplied
code value (including none) and takes effect. -/
theorem C10_empty_code (pt tt : Nat) (dat : Bool) (m : AlarmState → Nat)
    (topic : String) (qos now : Nat) (supplied : Option String) :
    (ManualMQTTAlarm.init (some "") pt tt dat m topic qos)._code = none ∧
    (∀ s, (ManualMQTTAlarm.init (some "") pt tt dat m topic qos)._validate_code
        supplied s = true) ∧
    ((ManualMQTTAlarm.init (some "") pt tt dat m topic qos).alarm_disarm
        supplied now).1._state = .disarmed ∧
    ((ManualMQTTAlarm.init (some "") pt tt dat m topic qos).alarm_arm_home
        supplied now).1._state = .armed_home ∧
    ((ManualMQTTAlarm.init (some "") pt tt dat m topic qos).alarm_arm_away
        supplied now).1._state = .armed_away ∧
    ((ManualMQTTAlarm.init (some "") pt tt dat m topic qos).alarm_arm_night
        supplied now).1._state = .armed_night := by
  have hnone : (ManualMQTTAlarm.init (some "") pt tt dat m topic qos)._code = none := rfl
  have hval : ∀ s, (ManualMQTTAlarm.init (some "") pt tt dat m topic qos)._validate_code
      supplied s = true := by
    intro s
    unfold ManualMQTTAlarm._validate_code
    rw [hnone]
    rfl
  refine ⟨hnone, hval, ?_, ?_, ?_, ?_⟩
  · unfold ManualMQTTAlarm.alarm_disarm
    rw [if_neg (by simp [hval])]
  · unfold ManualMQTTAlarm.alarm_arm_home
    rw [if_neg (by simp [hval]), update_state_fst]
  · unfold ManualMQTTAlarm.alarm_arm_away
    rw [if_neg (by simp [hval]), update_state_fst]
  · unfold ManualMQTTAlarm.alarm_arm_night
    rw [if_neg (by simp [hval]), update_state_fst]

/-- C1: with `trigger_time = 120`, `pending_time[triggered] = 60`,
`disarm_after_trigger = false` and the stored state `armed_home` when
`alarm_trigger` runs at time `t`, the effective state is `pending` at
`t + 30`, `triggered` at `t + 90`, and `armed_home` at `t + 181`; the last
query hands back the panel with its stored state mutated to `armed_home`
(while the stored state right before the query was still `triggered`). -/
theorem C1_trigger_lifecycle (p : ManualMQTTAlarm) (t : Nat)
    (hs : p._state = .armed_home) (htr : p._trigger_time = 120)
    (hpd : p._pending_time_by_state .triggered = 60)
    (hdat : p._disarm_after_trigger = false) :
    (p.alarm_trigger none t).1.state (t + 30) =
      .ok (.pending, (p.alarm_trigger none t).1) ∧
    (p.alarm_trigger none t).1.state (t + 90) =
      .ok (.triggered, (p.alarm_trigger none t).1) ∧
    (p.alarm_trigger none t).1.state (t + 181) =
      .ok (.armed_home, { (p.alarm_trigger none t).1 with _state := .armed_home }) ∧
    (p.alarm_trigger none t).1._state = .triggered := by
  rw [alarm_trigger_fst p none t, hs]
  refine ⟨?_, ?_, ?_, rfl⟩
  · exact state_pending _ t _ rfl (by show p._trigger_time ≠ 0; omega) rfl
      (by show t + 30 < t + p._pending_time_by_state .triggered; omega)
  · rw [state_after_pending _ t _ rfl (by show p._trigger_time ≠ 0; omega) rfl
      (by show ¬ t + 90 < t + p._pending_time_by_state .triggered; omega)
      (by
        show ¬ t + p._pending_time_by_state .triggered + p._trigger_time < t + 90
        omega)]
    exact stateTail_raw _ t _
      (by show AlarmState.triggered ∈ SUPPORTED_PENDING_STATES; decide) rfl
      (by show ¬ t + 90 < t + p._pending_time_by_state .triggered; omega)
  · exact state_expired_restore _ t _ rfl (by show p._trigger_time ≠ 0; omega) rfl
      (by
        show t + p._pending_time_by_state .triggered + p._trigger_time < t + 181
        omega)
      hdat

/-- Witness for C1 at the concrete panel `alarmC1w` and `t = 0`. -/
theorem C1_witness :
    (alarmC1w.alarm_trigger none 0).1.state (0 + 30) =
      .ok (.pending, (alarmC1w.alarm_trigger none 0).1) ∧
    (alarmC1w.alarm_trigger none 0).1.state (0 + 90) =
      .ok (.triggered, (alarmC1w.alarm_trigger none 0).1) ∧
    (alarmC1w.alarm_trigger none 0).1.state (0 + 181) =
      .ok (.armed_home, { (alarmC1w.alarm_trigger none 0).1 with _state := .armed_home }) ∧
    (alarmC1w.alarm_trigger none 0).1._state = .triggered :=
  C1_trigger_lifecycle alarmC1w 0 rfl rfl rfl rfl

/-- C5: after `_update_state(Triggered)` with `triggerDuration > 0` exactly
two callbacks are scheduled, at the pending boundary and at the trigger
boundary; after `_update_state` to an armed state exactly one callback is
scheduled iff that state's pending duration is non-zero; `alarm_disarm` never
schedules anything. -/
theorem C5_scheduling (p : ManualMQTTAlarm) (code : Option String) (now : Nat)
    (htr : p._trigger_time ≠ 0) :
    (p._update_state .triggered now).2 =
      [now + p._pending_time_by_state .triggered,
       now + p._pending_time_by_state .triggered + p._trigger_time] ∧
    (∀ s, s ∈ ([.armed_away, .armed_home, .armed_night] : List AlarmState) →
      (p._pending_time_by_state s ≠ 0 →
        (p._update_state s now).2 = [now + p._pending_time_by_state s]) ∧
      (p._pending_time_by_state s = 0 →
        (p._update_state s now).2 = [])) ∧
    (p.alarm_disarm code now).2 = [] := by
  refine ⟨?_, ?_, ?_⟩
  · unfold ManualMQTTAlarm._update_state
    dsimp only
    rw [if_pos ⟨rfl, htr⟩]
    simp only [List.cons.injEq, and_true, true_and]
    omega
  · intro s hs
    fin_cases hs <;>
    · constructor
      · intro hpd
        unfold ManualMQTTAlarm._update_state
        dsimp only
        rw [if_neg (by simp), if_pos ⟨by decide, hpd⟩]
      · intro hpd0
        unfold ManualMQTTAlarm._update_state
        dsimp only
        rw [if_neg (by simp), if_neg (fun hand => hand.2 hpd0)]
  · unfold ManualMQTTAlarm.alarm_disarm
    split <;> rfl

/-- Witness for C5 at `alarmC1w`: triggering at 10 schedules callbacks at 70
and 190. -/
theorem C5_witness : (alarmC1w._update_state .triggered 10).2 = [70, 190] :=
  ((C5_scheduling alarmC1w none 10 (by decide)).1).trans (by decide)

/-- C6: validation always passes with no configured secret, otherwise iff the
supplied code equals the secret by exact string match; each guarded command is
a complete no-op (stored state untouched, no callback scheduled) when
validation fails. -/
theorem C6_validation (p : ManualMQTTAlarm) (code : Option String) (now : Nat) :
    (p._code = none → ∀ s, p._validate_code code s = true) ∧
    (∀ secret, p._code = some secret →
      ∀ s, (p._validate_code code s = true ↔ code = some secret)) ∧
    (p._validate_code code .disarmed = false →
      p.alarm_disarm code now = (p, [])) ∧
    (p._validate_code code .armed_home = false →
      p.alarm_arm_home code now = (p, [])) ∧
    (p._validate_code code .armed_away = false →
      p.alarm_arm_away code now = (p, [])) ∧
    (p._validate_code code .armed_night = false →
      p.alarm_arm_night code now = (p, [])) := by
  refine ⟨?_, ?_, ?_, ?_, ?_, ?_⟩
  · intro h s
    unfold ManualMQTTAlarm._validate_code
    rw [h]
    rfl
  · intro secret h s
    unfold ManualMQTTAlarm._validate_code
    rw [h]
    simp
  · intro h
    unfold ManualMQTTAlarm.alarm_disarm
    rw [if_pos (by rw [h]; exact fun hf => Bool.noConfusion hf)]
  · intro h
    unfold ManualMQTTAlarm.alarm_arm_home
    rw [if_pos (by rw [h]; exact fun hf => Bool.noConfusion hf)]
  · intro h
    unfold ManualMQTTAlarm.alarm_arm_away
    rw [if_pos (by rw [h]; exact fun hf => Bool.noConfusion hf)]
  · intro h
    unfold ManualMQTTAlarm.alarm_arm_night
    rw [if_pos (by rw [h]; exact fun hf => Bool.noConfusion hf)]

/-- Witness for C6: with secret `"1234"`, the matching code validates, a wrong
code leaves `alarm_disarm` a no-op, and with no secret any command validates. -/
theorem C6_witness :
    alarmC6s._validate_code (some "1234") .disarmed = true ∧
    alarmC6s.alarm_disarm (some "9999") 5 = (alarmC6s, []) ∧
    alarmC1w._validate_code none .armed_home = true :=
  ⟨((C6_validation alarmC6s (some "1234") 5).2.1 "1234" rfl .disarmed).mpr rfl,
   (C6_validation alarmC6s (some "9999") 5).2.2.1 (by decide),
   (C6_validation alarmC1w none 5).1 rfl .armed_home⟩

/-- C7: after a successful arm-away with a non-zero `armed_away` pending
window, the outbound publication (listener fed by the host's state-change
notification, which per the spec carries the raw state) has payload
`armed_away` and is retained, even though the effective state at that very
instant is `pending`. -/
theorem C7_raw_outbound (p : ManualMQTTAlarm) (code : Option String) (now : Nat)
    (hv : p._validate_code code .armed_away = true)
    (hpd : p._pending_time_by_state .armed_away ≠ 0) :
    ((p.alarm_arm_away code now).1._async_state_changed_listener
        (host_state_changed_payload (p.alarm_arm_away code now).1)).payload =
      "armed_away" ∧
    ((p.alarm_arm_away code now).1._async_state_changed_listener
        (host_state_changed_payload (p.alarm_arm_away code now).1)).retain = true ∧
    ("armed_away" : String) ≠ "pending" ∧
    (p.alarm_arm_away code now).1.state now =
      .ok (.pending, (p.alarm_arm_away code now).1) := by
  have hfst : (p.alarm_arm_away code now).1 =
      { p with _state := .armed_away, _state_ts := some now } := by
    unfold ManualMQTTAlarm.alarm_arm_away
    rw [if_neg (by simp [hv]), update_state_fst]
  rw [hfst]
  refine ⟨rfl, rfl, by decide, ?_⟩
  rw [state_eq_tail _ now (fun hand => absurd hand.1 (by simp))]
  exact stateTail_pending _ now now
    (by show AlarmState.armed_away ∈ SUPPORTED_PENDING_STATES; decide) rfl
    (by show now < now + p._pending_time_by_state .armed_away; omega)

/-- Witness for C7 at `alarmC7w` (30 s `armed_away` pending window), arming at
time 50. -/
theorem C7_witness :
    ((alarmC7w.alarm_arm_away none 50).1._async_state_changed_listener
        (host_state_changed_payload (alarmC7w.alarm_arm_away none 50).1)).payload =
      "armed_away" ∧
    ((alarmC7w.alarm_arm_away none 50).1._async_state_changed_listener
        (host_state_changed_payload (alarmC7w.alarm_arm_away none 50).1)).retain = true ∧
    ("armed_away" : String) ≠ "pending" ∧
    (alarmC7w.alarm_arm_away none 50).1.state 50 =
      .ok (.pending, (alarmC7w.alarm_arm_away none 50).1) :=
  C7_raw_outbound alarmC7w none 50 rfl (by decide)

/-- C3 counterexample: in a state reached purely through commands (arm-home at
0 with a 300 s `armed_home` pending override, trigger at 100), querying at 281
restores and displays `armed_home`, but the immediate second query at the same
time displays `pending` — the restore did not refresh `_state_ts`, so the
restored state is again inside its own pending window.  The two calls do not
yield the same display state. -/
theorem C3_counterexample :
    (alarmC3.state 281).map Prod.fst = .ok .armed_home ∧
    (stateTwice alarmC3 281).map Prod.fst = .ok .pending ∧
    AlarmState.armed_home ≠ AlarmState.pending := by
  refine ⟨?_, ?_, by decide⟩
  · rfl
  · rfl

/-- C3 (amended): the stored state is never double-mutated: whenever
`state` succeeds, querying again at the same time on the returned panel
succeeds and returns that panel unchanged (the second call observes the
already-restored stored state); the *display* value of the second call may
differ, as the counterexample shows. -/
theorem C3_no_double_restore (p : ManualMQTTAlarm) (now : Nat) (d : AlarmState)
    (q : ManualMQTTAlarm) (h : p.state now = .ok (d, q)) :
    ∃ d2, q.state now = .ok (d2, q) := by
  by_cases hc : p._state = .triggered ∧ p._trigger_time ≠ 0
  · cases hts : p._state_ts with
    | none =>
      have herr : p.state now = .error nullTsError := by
        unfold ManualMQTTAlarm.state ManualMQTTAlarm._within_pending_time
        rw [if_pos hc, hts]
      rw [herr] at h
      exact absurd h (fun hf => Except.noConfusion hf)
    | some ts =>
      by_cases hw : now < ts + p._pending_time_by_state .triggered
      · have h1 : p.state now = .ok (.pending, p) :=
          state_pending p ts now hc.1 hc.2 hts hw
        rw [h1] at h
        injection h with h2
        injection h2 with h2a h2b
        subst h2b
        exact ⟨d, h1.trans (by rw [h2a])⟩
      · by_cases hb : ts + p._pending_time_by_state .triggered + p._trigger_time < now
        · cases hdat : p._disarm_after_trigger with
          | true =>
            have h1 : p.state now = .ok (.disarmed, p) :=
              state_expired_disarm p ts now hc.1 hc.2 hts hb hdat
            rw [h1] at h
            injection h with h2
            injection h2 with h2a h2b
            subst h2b
            exact ⟨d, h1.trans (by rw [h2a])⟩
          | false =>
            have h1 : p.state now =
                .ok (p._pre_trigger_state, { p with _state := p._pre_trigger_state }) :=
              state_expired_restore p ts now hc.1 hc.2 hts hb hdat
            rw [h1] at h
            injection h with h2
            injection h2 with h2a h2b
            subst h2b
            by_cases hpre : p._pre_trigger_state = .triggered
            · exact ⟨p._pre_trigger_state,
                state_expired_restore _ ts now hpre hc.2 hts hb hdat⟩
            · have hcq : ¬ (({ p with _state := p._pre_trigger_state } :
                  ManualMQTTAlarm)._state = .triggered ∧
                  ({ p with _state := p._pre_trigger_state } :
                  ManualMQTTAlarm)._trigger_time ≠ 0) :=
                fun hand => hpre hand.1
              rw [state_eq_tail _ now hcq]
              exact stateTail_ok _ ts now hts
        · have h1 : p.state now = p.stateTail now :=
            state_after_pending p ts now hc.1 hc.2 hts hw hb
          rw [h1] at h
          have hq2 : q = p := stateTail_snd p now (d, q) h
          subst hq2
          exact ⟨d, h1.trans h⟩
  · have h1 : p.state now = p.stateTail now := state_eq_tail p now hc
    rw [h1] at h
    have hq2 : q = p := stateTail_snd p now (d, q) h
    subst hq2
    exact ⟨d, h1.trans h⟩

/-- Witness for C3 (amended): the second query on the restored panel of the
counterexample scenario succeeds and leaves it unchanged. -/
theorem C3_no_double_restore_witness :
    ∃ d2, alarmC3r.state 281 = .ok (d2, alarmC3r) :=
  C3_no_double_restore alarmC3 281 .armed_home alarmC3r rfl
